import Mathlib

/-
Verification of the service-options resource of the cachefly-sdk-go
repository.

The repository ships the tests, example programs and documentation of a
thin SDK layer; the wrapped operations themselves
(pkg/cachefly/api/v2_5/service_options.go, accounts.go and the HTTP
transport) are not present, so the operations below are modelled from the
specification, faithful to its words, and checked against the observable
contract the shipped tests pin down (paths, methods, call counts, error
values).

The network is modelled as an abstract server: a function from requests to
either a transport error or a typed response body (JSON decoding mechanics
are out of the specification scope).  Every operation returns, next to its
result, the ordered list of requests it issued, so "exactly one network
call" and "the write is never issued" are provable statements.
-/

namespace CacheFly

/-- A JSON option value, modelled as a tagged union (spec section 9:
bool, string or number) plus null, so decoding preserves each value's
JSON type by construction. -/
inductive JsonValue where
  | bool (b : Bool)
  | str (s : String)
  | num (n : Int)
  | null
deriving DecidableEq, Repr

/-- Modelled from the spec: the Client Options Map of service_options.go
(Go type ServiceOptions, a map from option name to arbitrary value),
embedded as an association list in the order the caller iterates it. -/
abbrev ServiceOptions := List (String × JsonValue)

/-- Modelled from the spec: the property sub-object of an Option Metadata
Entry (fields name and type). -/
structure OptionProperty where
  Name : String
  type_ : String
deriving DecidableEq, Repr

/-- Modelled from the spec: one Option Metadata Entry of
service_options.go — identifier, name (the key used for matching),
declared type, read-only flag, display title, property. -/
structure OptionMetadata where
  id_ : String
  Name : String
  Title : String
  type_ : String
  ReadOnly : Bool
  Property : OptionProperty
deriving DecidableEq, Repr

/-- Modelled from the spec: the meta sub-object of the metadata response
carrying the count. -/
structure MetaInfo where
  Count : Nat
deriving DecidableEq, Repr

/-- Modelled from the spec: the Option Metadata Collection of
service_options.go — an ordered sequence of entries plus a count, as the
tests read it through result.Meta.Count and result.Data. -/
structure ServiceOptionsMetadata where
  Meta : MetaInfo
  Data : List OptionMetadata
deriving DecidableEq, Repr

/-- Modelled from the spec: a Validation Error Entry, a (field name,
error code, message) triple identifying one invalid supplied key. -/
structure OptionValidationError where
  Field : String
  Code : String
  Message : String
deriving DecidableEq, Repr

/-- Modelled from the spec: the aggregate validation error type of
service_options.go (Go type ServiceOptionsValidationError), exposing the
full entry list through its Errors field. -/
structure ServiceOptionsValidationError where
  Errors : List OptionValidationError
deriving DecidableEq, Repr

/-- Modelled from the spec: the Go Error() string of the aggregate
validation error; the spec fixes only that the type satisfies the error
interface, not the message text. -/
def ServiceOptionsValidationError.errorMessage
    (v : ServiceOptionsValidationError) : String :=
  "service options validation failed for " ++ toString v.Errors.length
    ++ " field(s)"

/-- Modelled from the spec: the legacy API key response body
(wire shape: a JSON object with an apiKey string), read by the tests
through result.APIKey. -/
structure APIKeyResponse where
  APIKey : String
deriving DecidableEq, Repr

/-- The error taxonomy of the layer (spec section 7): a plain message
error (errors.New style, used for the precondition failure), a transport
error surfaced unchanged, or the typed aggregate validation error. -/
inductive SDKError where
  | message (msg : String)
  | transport (msg : String)
  | validation (v : ServiceOptionsValidationError)
deriving DecidableEq, Repr

/-- The Go error interface: the string a caller sees from err.Error(). -/
def SDKError.errorString : SDKError → String
  | .message m => m
  | .transport m => m
  | .validation v => v.errorMessage

/-- HTTP method of a request. -/
inductive Method where
  | get
  | put
  | post
  | delete
deriving DecidableEq, Repr

/-- One network request: method, resource path, and for the update write
the full Client Options Map it carries. -/
structure Request where
  method : Method
  path : String
  body : Option ServiceOptions
deriving DecidableEq, Repr

/-- A typed response body from the server; decoding a body of the wrong
shape is a transport-level failure (spec section 7 folds decode failures
into transport errors). -/
inductive Response where
  | options (m : ServiceOptions)
  | metadata (md : ServiceOptionsMetadata)
  | apiKey (k : APIKeyResponse)
  | account (a : String)
  | empty
deriving DecidableEq, Repr

/-- The abstract remote server: each request either fails at transport
level or yields a typed body. -/
def Server := Request → Except String Response

/-- Path of the options resource of a service (spec section 6). -/
def optionsPath (id : String) : String :=
  "/services/" ++ id ++ "/options"

/-- Path of the options metadata resource (spec section 6). -/
def metadataPath (id : String) : String :=
  optionsPath id ++ "/metadata"

/-- Path of the legacy API key resource (spec section 6). -/
def apiKeyPath (id : String) : String :=
  optionsPath id ++ "/apikey"

/-- The read request for current options. -/
def getOptionsReq (id : String) : Request :=
  { method := .get, path := optionsPath id, body := none }

/-- The read request for options metadata. -/
def getMetadataReq (id : String) : Request :=
  { method := .get, path := metadataPath id, body := none }

/-- The update write request, carrying the full Client Options Map. -/
def putOptionsReq (id : String) (opts : ServiceOptions) : Request :=
  { method := .put, path := optionsPath id, body := some opts }

/-- The read request for the legacy API key. -/
def getApiKeyReq (id : String) : Request :=
  { method := .get, path := apiKeyPath id, body := none }

/-- The write request regenerating the legacy API key. -/
def postApiKeyReq (id : String) : Request :=
  { method := .post, path := apiKeyPath id, body := none }

/-- The request deleting the legacy API key. -/
def deleteApiKeyReq (id : String) : Request :=
  { method := .delete, path := apiKeyPath id, body := none }

/-- Transport message for a response body of an unexpected shape. -/
def decodeFailureMsg : String := "failed to decode response body"

/-- The literal precondition error of every operation (spec section 6:
message exactly "id is required", no network activity). -/
def idRequiredError : SDKError := .message "id is required"

/-- Modelled from the spec: GetOptions of service_options.go — after the
non-empty identifier precondition, one GET to the options path, returning
the decoded free-form mapping verbatim. -/
def GetOptions (srv : Server) (id : String) :
    Except SDKError ServiceOptions × List Request :=
  if id = "" then (.error idRequiredError, [])
  else
    match srv (getOptionsReq id) with
    | .error e => (.error (.transport e), [getOptionsReq id])
    | .ok (.options m) => (.ok m, [getOptionsReq id])
    | .ok _ => (.error (.transport decodeFailureMsg), [getOptionsReq id])

/-- Modelled from the spec: GetOptionsMetadata of service_options.go (the
Options Metadata Resolver, spec section 4.1) — after the precondition,
one GET to the metadata path, returning the collection as reported. -/
def GetOptionsMetadata (srv : Server) (id : String) :
    Except SDKError ServiceOptionsMetadata × List Request :=
  if id = "" then (.error idRequiredError, [])
  else
    match srv (getMetadataReq id) with
    | .error e => (.error (.transport e), [getMetadataReq id])
    | .ok (.metadata md) => (.ok md, [getMetadataReq id])
    | .ok _ => (.error (.transport decodeFailureMsg), [getMetadataReq id])

/-- Modelled from the spec: the valid-name set of the validator, the name
field of every entry of the fetched collection (spec section 4.2 step 3). -/
def validNames (md : ServiceOptionsMetadata) : List String :=
  md.Data.map (fun e => e.Name)

/-- Modelled from the spec: the message text of one Validation Error
Entry; the spec fixes the field and the code but not the message. -/
def validationMessage (field : String) : String :=
  "option " ++ field ++ " is not available for this service"

/-- Modelled from the spec: the membership check of the validator (spec
section 4.2 step 4) — every supplied key absent from the valid-name set
is recorded, in iteration order, as an entry with code
OPTION_NOT_AVAILABLE and the offending field name. -/
def validateOptions (valid : List String) : ServiceOptions →
    List OptionValidationError
  | [] => []
  | kv :: rest =>
    if valid.contains kv.1 then validateOptions valid rest
    else { Field := kv.1, Code := "OPTION_NOT_AVAILABLE",
           Message := validationMessage kv.1 } :: validateOptions valid rest

/-- Modelled from the spec: UpdateOptions of service_options.go (the
Options Update Validator, spec section 4.2) — precondition, metadata
read, membership validation, and the update write only when every
supplied key is valid. -/
def UpdateOptions (srv : Server) (id : String) (opts : ServiceOptions) :
    Except SDKError ServiceOptions × List Request :=
  if id = "" then (.error idRequiredError, [])
  else
    match srv (getMetadataReq id) with
    | .error e => (.error (.transport e), [getMetadataReq id])
    | .ok (.metadata md) =>
      if validateOptions (validNames md) opts = [] then
        match srv (putOptionsReq id opts) with
        | .error e =>
          (.error (.transport e), [getMetadataReq id, putOptionsReq id opts])
        | .ok (.options m) =>
          (.ok m, [getMetadataReq id, putOptionsReq id opts])
        | .ok _ =>
          (.error (.transport decodeFailureMsg),
           [getMetadataReq id, putOptionsReq id opts])
      else
        (.error (.validation { Errors := validateOptions (validNames md) opts }),
         [getMetadataReq id])
    | .ok _ => (.error (.transport decodeFailureMsg), [getMetadataReq id])

/-- Modelled from the spec: GetLegacyAPIKey of service_options.go — one
GET to the apikey path after the precondition. -/
def GetLegacyAPIKey (srv : Server) (id : String) :
    Except SDKError APIKeyResponse × List Request :=
  if id = "" then (.error idRequiredError, [])
  else
    match srv (getApiKeyReq id) with
    | .error e => (.error (.transport e), [getApiKeyReq id])
    | .ok (.apiKey k) => (.ok k, [getApiKeyReq id])
    | .ok _ => (.error (.transport decodeFailureMsg), [getApiKeyReq id])

/-- Modelled from the spec: RegenerateLegacyAPIKey of service_options.go
— one POST to the apikey path after the precondition, returning the new
key the server reports. -/
def RegenerateLegacyAPIKey (srv : Server) (id : String) :
    Except SDKError APIKeyResponse × List Request :=
  if id = "" then (.error idRequiredError, [])
  else
    match srv (postApiKeyReq id) with
    | .error e => (.error (.transport e), [postApiKeyReq id])
    | .ok (.apiKey k) => (.ok k, [postApiKeyReq id])
    | .ok _ => (.error (.transport decodeFailureMsg), [postApiKeyReq id])

/-- Modelled from the spec: DeleteLegacyAPIKey of service_options.go —
one DELETE to the apikey path after the precondition; a success status
with empty body yields no error. -/
def DeleteLegacyAPIKey (srv : Server) (id : String) :
    Except SDKError Unit × List Request :=
  if id = "" then (.error idRequiredError, [])
  else
    match srv (deleteApiKeyReq id) with
    | .error e => (.error (.transport e), [deleteApiKeyReq id])
    | .ok .empty => (.ok (), [deleteApiKeyReq id])
    | .ok _ => (.error (.transport decodeFailureMsg), [deleteApiKeyReq id])

/-- The read request of the accounts resource Get operation. -/
def accountsGetReq (id : String) : Request :=
  { method := .get, path := "/accounts/" ++ id, body := none }

/-- Modelled from the spec: Get of the accounts resource (accounts.go is
not under src/).  The spec states the non-empty-identifier precondition
for the service-options operations (sections 4 and 6) and imposes none on
the accounts wrapper; the shipped example calls Get with the empty
identifier to fetch the current account, so Get issues its single read
unconditionally and returns the account the server reports. -/
def Accounts_Get (srv : Server) (id : String) :
    Except SDKError String × List Request :=
  match srv (accountsGetReq id) with
  | .error e => (.error (.transport e), [accountsGetReq id])
  | .ok (.account a) => (.ok a, [accountsGetReq id])
  | .ok _ => (.error (.transport decodeFailureMsg), [accountsGetReq id])

/- Properties of the validator. -/

/-- The field names of the recorded entries are exactly the supplied keys
failing the membership test, in iteration order. -/
theorem validateOptions_map_field (valid : List String)
    (opts : ServiceOptions) :
    (validateOptions valid opts).map (fun e => e.Field)
      = (opts.map (fun kv => kv.1)).filter (fun k => !(valid.contains k)) := by
  induction opts with
  | nil => rfl
  | cons kv rest ih =>
    by_cases h : kv.1 ∈ valid <;>
      simp [validateOptions, h, List.filter_cons, ih]

/-- Every recorded entry carries the code OPTION_NOT_AVAILABLE. -/
theorem validateOptions_code (valid : List String) (opts : ServiceOptions) :
    ∀ e ∈ validateOptions valid opts, e.Code = "OPTION_NOT_AVAILABLE" := by
  induction opts with
  | nil => intro e he; cases he
  | cons kv rest ih =>
    intro e he
    by_cases h : kv.1 ∈ valid
    · exact ih e (by simpa [validateOptions, h] using he)
    · rcases (by simpa [validateOptions, h] using he) with h1 | h1
      · simp [h1]
      · exact ih e h1

/-- No entry is recorded exactly when every supplied key is a member of
the valid-name set. -/
theorem validateOptions_eq_nil_iff (valid : List String)
    (opts : ServiceOptions) :
    validateOptions valid opts = [] ↔
      ∀ kv ∈ opts, valid.contains kv.1 := by
  induction opts with
  | nil => simp [validateOptions]
  | cons kv rest ih =>
    by_cases h : kv.1 ∈ valid <;> simp [validateOptions, h, ih]

/-- A supplied key absent from the valid-name set forces at least one
recorded entry. -/
theorem validateOptions_ne_nil (valid : List String) (opts : ServiceOptions)
    (kv : String × JsonValue) (hmem : kv ∈ opts)
    (hinv : ¬ valid.contains kv.1) :
    validateOptions valid opts ≠ [] := by
  intro hnil
  exact hinv ((validateOptions_eq_nil_iff valid opts).mp hnil kv hmem)

/- Concrete fixtures mirroring the shipped tests. -/

/-- The cors metadata entry of the test fixtures. -/
def corsEntry : OptionMetadata :=
  { id_ := "opt1", Name := "cors", Title := "CORS Settings", type_ := "dynamic",
    ReadOnly := false, Property := { Name := "cors", type_ := "boolean" } }

/-- The ftp metadata entry of the test fixtures. -/
def ftpEntry : OptionMetadata :=
  { id_ := "opt2", Name := "ftp", Title := "FTP Access", type_ := "dynamic",
    ReadOnly := false, Property := { Name := "ftp", type_ := "boolean" } }

/-- The autoRedirect metadata entry of the test fixtures. -/
def autoRedirectEntry : OptionMetadata :=
  { id_ := "opt3", Name := "autoRedirect", Title := "", type_ := "dynamic",
    ReadOnly := false,
    Property := { Name := "autoRedirect", type_ := "boolean" } }

/-- Metadata collection with a single entry (validation-error test). -/
def mdOne : ServiceOptionsMetadata :=
  { Meta := { Count := 1 }, Data := [corsEntry] }

/-- Metadata collection with two entries (metadata read test). -/
def mdTwo : ServiceOptionsMetadata :=
  { Meta := { Count := 2 }, Data := [corsEntry, ftpEntry] }

/-- Metadata collection with three entries (update test). -/
def mdThree : ServiceOptionsMetadata :=
  { Meta := { Count := 3 }, Data := [corsEntry, ftpEntry, autoRedirectEntry] }

/-- The current options mapping the read test server returns. -/
def optsCurrent : ServiceOptions :=
  [("ftp", .bool true), ("cors", .bool false), ("autoRedirect", .bool true)]

/-- The all-valid update request of the update test. -/
def optsValid : ServiceOptions :=
  [("ftp", .bool false), ("cors", .bool true), ("autoRedirect", .bool false)]

/-- The post-update mapping the update test server returns. -/
def optsUpdated : ServiceOptions :=
  [("ftp", .bool false), ("cors", .bool true), ("autoRedirect", .bool false)]

/-- The update request of the validation-error test: cors is valid,
invalid_option is absent from the metadata. -/
def optsInvalid : ServiceOptions :=
  [("cors", .bool true), ("invalid_option", .bool false)]

/-- Server of the options read test. -/
def srvOptionsOnly : Server := fun _ => .ok (.options optsCurrent)

/-- Server of the metadata read test. -/
def srvMetadataTwo : Server := fun _ => .ok (.metadata mdTwo)

/-- Server of the validation-error test: only the metadata read is
answered. -/
def srvMetadataOne : Server := fun _ => .ok (.metadata mdOne)

/-- Server of the update test: answers the metadata read and the update
write. -/
def srvUpdate : Server := fun r =>
  match r.method with
  | .get => .ok (.metadata mdThree)
  | .put => .ok (.options optsUpdated)
  | _ => .error "unexpected request"

/-- Server of the regenerate test. -/
def srvNewApiKey : Server := fun _ => .ok (.apiKey { APIKey := "new-api-key-456" })

/-- Server of the delete test: success status, empty body. -/
def srvNoContent : Server := fun _ => .ok .empty

/-- Server of the accounts example: returns the current account. -/
def srvAccount : Server := fun _ => .ok (.account "current-account")

/- Claim theorems. -/

/-- C3: with an empty service identifier, every public operation (get
options, get metadata, update options, get, regenerate and delete of the
legacy API key) fails immediately with the error whose message is exactly
"id is required" and issues zero network calls. -/
theorem emptyId_failsLocally (srv : Server) (opts : ServiceOptions) :
    GetOptions srv "" = (.error idRequiredError, []) ∧
    GetOptionsMetadata srv "" = (.error idRequiredError, []) ∧
    UpdateOptions srv "" opts = (.error idRequiredError, []) ∧
    GetLegacyAPIKey srv "" = (.error idRequiredError, []) ∧
    RegenerateLegacyAPIKey srv "" = (.error idRequiredError, []) ∧
    DeleteLegacyAPIKey srv "" = (.error idRequiredError, []) ∧
    SDKError.errorString idRequiredError = "id is required" :=
  ⟨rfl, rfl, rfl, rfl, rfl, rfl, rfl⟩

/-- C5: for a non-empty identifier, requesting current options issues
exactly one GET to the options path and returns the mapping the server
reports verbatim (values are JsonValue terms, so each value keeps its
JSON type under this equality). -/
theorem getOptions_single_read (srv : Server) (id : String)
    (m : ServiceOptions)
    (hid : id ≠ "")
    (hsrv : srv (getOptionsReq id) = .ok (.options m)) :
    GetOptions srv id = (.ok m, [getOptionsReq id]) ∧
    getOptionsReq id
      = { method := .get, path := optionsPath id, body := none } := by
  refine ⟨?_, rfl⟩
  simp [GetOptions, hid, hsrv]

/-- Witness for C5 at the read test fixtures. -/
theorem getOptions_single_read_witness :
    GetOptions srvOptionsOnly "svc-123"
      = (.ok optsCurrent, [getOptionsReq "svc-123"]) ∧
    getOptionsReq "svc-123"
      = { method := .get, path := optionsPath "svc-123", body := none } :=
  getOptions_single_read srvOptionsOnly "svc-123" optsCurrent (by decide) rfl

/-- C6: for a non-empty identifier, requesting metadata issues exactly
one GET to the metadata path and returns the collection the server
reports verbatim; when the server reports a consistent collection, the
returned collection has its count equal to the number of entries of its
data sequence. -/
theorem getOptionsMetadata_single_read (srv : Server) (id : String)
    (md : ServiceOptionsMetadata)
    (hid : id ≠ "")
    (hsrv : srv (getMetadataReq id) = .ok (.metadata md))
    (hcount : md.Meta.Count = md.Data.length) :
    GetOptionsMetadata srv id = (.ok md, [getMetadataReq id]) ∧
    (∀ r, (GetOptionsMetadata srv id).1 = .ok r →
      r.Meta.Count = r.Data.length) ∧
    getMetadataReq id
      = { method := .get, path := metadataPath id, body := none } := by
  have h1 : GetOptionsMetadata srv id = (.ok md, [getMetadataReq id]) := by
    simp [GetOptionsMetadata, hid, hsrv]
  refine ⟨h1, ?_, rfl⟩
  intro r hr
  rw [h1] at hr
  simp only [Except.ok.injEq] at hr
  rw [← hr]
  exact hcount

/-- Witness for C6 at the metadata test fixtures. -/
theorem getOptionsMetadata_single_read_witness :
    GetOptionsMetadata srvMetadataTwo "svc-123"
      = (.ok mdTwo, [getMetadataReq "svc-123"]) ∧
    (∀ r, (GetOptionsMetadata srvMetadataTwo "svc-123").1 = .ok r →
      r.Meta.Count = r.Data.length) ∧
    getMetadataReq "svc-123"
      = { method := .get, path := metadataPath "svc-123", body := none } :=
  getOptionsMetadata_single_read srvMetadataTwo "svc-123" mdTwo
    (by decide) rfl rfl

/-- C7: for a non-empty identifier, deleting the legacy API key issues
exactly one DELETE to the apikey path, and a success response with empty
body yields no error. -/
theorem deleteLegacyAPIKey_single_call (srv : Server) (id : String)
    (hid : id ≠ "")
    (hsrv : srv (deleteApiKeyReq id) = .ok .empty) :
    DeleteLegacyAPIKey srv id = (.ok (), [deleteApiKeyReq id]) ∧
    deleteApiKeyReq id
      = { method := .delete, path := apiKeyPath id, body := none } := by
  refine ⟨?_, rfl⟩
  simp [DeleteLegacyAPIKey, hid, hsrv]

/-- Witness for C7 at the delete test fixtures. -/
theorem deleteLegacyAPIKey_single_call_witness :
    DeleteLegacyAPIKey srvNoContent "svc-123"
      = (.ok (), [deleteApiKeyReq "svc-123"]) ∧
    deleteApiKeyReq "svc-123"
      = { method := .delete, path := apiKeyPath "svc-123", body := none } :=
  deleteLegacyAPIKey_single_call srvNoContent "svc-123" (by decide) rfl

/-- C8: for a non-empty identifier, regenerating the legacy API key
issues exactly one POST to the apikey path and returns the key value the
server reports verbatim; when the server reports a key distinct from a
previously-held one (the server decides the new value), the returned key
is distinct from it. -/
theorem regenerateLegacyAPIKey_single_write (srv : Server)
    (id oldKey : String) (k : APIKeyResponse)
    (hid : id ≠ "")
    (hsrv : srv (postApiKeyReq id) = .ok (.apiKey k))
    (hfresh : k.APIKey ≠ oldKey) :
    RegenerateLegacyAPIKey srv id = (.ok k, [postApiKeyReq id]) ∧
    (∀ r, (RegenerateLegacyAPIKey srv id).1 = .ok r →
      r.APIKey ≠ oldKey) ∧
    postApiKeyReq id
      = { method := .post, path := apiKeyPath id, body := none } := by
  have h1 : RegenerateLegacyAPIKey srv id = (.ok k, [postApiKeyReq id]) := by
    simp [RegenerateLegacyAPIKey, hid, hsrv]
  refine ⟨h1, ?_, rfl⟩
  intro r hr
  rw [h1] at hr
  simp only [Except.ok.injEq] at hr
  rw [← hr]
  exact hfresh

/-- Witness for C8 at the regenerate test fixtures, with the previously
retrieved key of the read test as the old key. -/
theorem regenerateLegacyAPIKey_single_write_witness :
    RegenerateLegacyAPIKey srvNewApiKey "svc-123"
      = (.ok { APIKey := "new-api-key-456" }, [postApiKeyReq "svc-123"]) ∧
    (∀ r, (RegenerateLegacyAPIKey srvNewApiKey "svc-123").1 = .ok r →
      r.APIKey ≠ "test-api-key-123") ∧
    postApiKeyReq "svc-123"
      = { method := .post, path := apiKeyPath "svc-123", body := none } :=
  regenerateLegacyAPIKey_single_write srvNewApiKey "svc-123"
    "test-api-key-123" { APIKey := "new-api-key-456" }
    (by decide) rfl (by decide)

/-- C10: the accounts resource Get operation accepts the empty
identifier: it performs its single network call and returns the current
account the server reports, never the "id is required" precondition
failure that every service-options operation raises on an empty
identifier. -/
theorem accountsGet_emptyId_succeeds (srv : Server) (a : String)
    (hsrv : srv (accountsGetReq "") = .ok (.account a)) :
    Accounts_Get srv "" = (.ok a, [accountsGetReq ""]) ∧
    (Accounts_Get srv "").1 ≠ .error idRequiredError ∧
    (Accounts_Get srv "").2 ≠ [] := by
  have h1 : Accounts_Get srv "" = (.ok a, [accountsGetReq ""]) := by
    simp [Accounts_Get, hsrv]
  refine ⟨h1, ?_, ?_⟩ <;> rw [h1] <;> simp

/-- Witness for C10 at the accounts example fixtures. -/
theorem accountsGet_emptyId_succeeds_witness :
    Accounts_Get srvAccount "" = (.ok "current-account", [accountsGetReq ""]) ∧
    (Accounts_Get srvAccount "").1 ≠ .error idRequiredError ∧
    (Accounts_Get srvAccount "").2 ≠ [] :=
  accountsGet_emptyId_succeeds srvAccount "current-account" rfl

/-- C2: for a non-empty identifier and a Client Options Map whose every
key matches a metadata entry name, UpdateOptions performs exactly two
network calls — first the metadata read (GET to the metadata path), then
the update write (PUT to the options path carrying the full map) — and
returns the mapping the server reports in the update response. -/
theorem updateOptions_allValid_twoCalls (srv : Server) (id : String)
    (opts : ServiceOptions) (md : ServiceOptionsMetadata)
    (updated : ServiceOptions)
    (hid : id ≠ "")
    (hmeta : srv (getMetadataReq id) = .ok (.metadata md))
    (hvalid : ∀ kv ∈ opts, kv.1 ∈ validNames md)
    (hput : srv (putOptionsReq id opts) = .ok (.options updated)) :
    UpdateOptions srv id opts
      = (.ok updated, [getMetadataReq id, putOptionsReq id opts]) ∧
    getMetadataReq id
      = { method := .get, path := metadataPath id, body := none } ∧
    putOptionsReq id opts
      = { method := .put, path := optionsPath id, body := some opts } := by
  have hnil : validateOptions (validNames md) opts = [] :=
    (validateOptions_eq_nil_iff _ _).mpr
      (fun kv hkv => by simpa using hvalid kv hkv)
  refine ⟨?_, rfl, rfl⟩
  simp [UpdateOptions, hid, hmeta, hnil, hput]

/-- Witness for C2 at the update test fixtures. -/
theorem updateOptions_allValid_twoCalls_witness :
    UpdateOptions srvUpdate "svc-123" optsValid
      = (.ok optsUpdated,
         [getMetadataReq "svc-123", putOptionsReq "svc-123" optsValid]) ∧
    getMetadataReq "svc-123"
      = { method := .get, path := metadataPath "svc-123", body := none } ∧
    putOptionsReq "svc-123" optsValid
      = { method := .put, path := optionsPath "svc-123",
          body := some optsValid } :=
  updateOptions_allValid_twoCalls srvUpdate "svc-123" optsValid mdThree
    optsUpdated (by decide) rfl (by decide) rfl

/-- C1: for a non-empty identifier and a Client Options Map (with
distinct keys, per map semantics) holding at least one key absent from
the metadata valid-name set, UpdateOptions performs exactly one network
call — the metadata read; the update write is never issued — and returns
the aggregate validation error whose entries list exactly one entry per
invalid key, each carrying the offending field name and the code
OPTION_NOT_AVAILABLE. -/
theorem updateOptions_invalidKey_noWrite (srv : Server) (id : String)
    (opts : ServiceOptions) (md : ServiceOptionsMetadata)
    (hid : id ≠ "")
    (hmeta : srv (getMetadataReq id) = .ok (.metadata md))
    (hnodup : (opts.map (fun kv => kv.1)).Nodup)
    (hinv : ∃ kv ∈ opts, kv.1 ∉ validNames md) :
    UpdateOptions srv id opts
      = (.error (.validation
            { Errors := validateOptions (validNames md) opts }),
         [getMetadataReq id]) ∧
    (validateOptions (validNames md) opts).map (fun e => e.Field)
      = (opts.map (fun kv => kv.1)).filter
          (fun k => !((validNames md).contains k)) ∧
    ((validateOptions (validNames md) opts).map (fun e => e.Field)).Nodup ∧
    (∀ e ∈ validateOptions (validNames md) opts,
      e.Code = "OPTION_NOT_AVAILABLE") ∧
    getMetadataReq id
      = { method := .get, path := metadataPath id, body := none } := by
  obtain ⟨kv, hkv, hkvinv⟩ := hinv
  have hne : validateOptions (validNames md) opts ≠ [] :=
    validateOptions_ne_nil (validNames md) opts kv hkv (by simpa using hkvinv)
  refine ⟨?_, validateOptions_map_field _ _, ?_,
    validateOptions_code _ _, rfl⟩
  · simp [UpdateOptions, hid, hmeta, hne]
  · rw [validateOptions_map_field]
    exact hnodup.filter _

/-- Witness for C1 at the validation-error test fixtures: the supplied
map holds cors (valid) and invalid_option (absent from the metadata). -/
theorem updateOptions_invalidKey_noWrite_witness :
    ("invalid_option" ∉ validNames mdOne) ∧
    (UpdateOptions srvMetadataOne "svc-123" optsInvalid
      = (.error (.validation
            { Errors := validateOptions (validNames mdOne) optsInvalid }),
         [getMetadataReq "svc-123"]) ∧
     (validateOptions (validNames mdOne) optsInvalid).map (fun e => e.Field)
       = (optsInvalid.map (fun kv => kv.1)).filter
           (fun k => !((validNames mdOne).contains k)) ∧
     ((validateOptions (validNames mdOne) optsInvalid).map
        (fun e => e.Field)).Nodup ∧
     (∀ e ∈ validateOptions (validNames mdOne) optsInvalid,
       e.Code = "OPTION_NOT_AVAILABLE") ∧
     getMetadataReq "svc-123"
       = { method := .get, path := metadataPath "svc-123", body := none }) :=
  ⟨by decide,
   updateOptions_invalidKey_noWrite srvMetadataOne "svc-123" optsInvalid
     mdOne (by decide) rfl (by decide)
     ⟨("invalid_option", .bool false), by decide, by decide⟩⟩

/-- C4: during update validation, the valid-name set is exactly the name
field of every entry of the fetched collection; a supplied key passes
validation (no entry is recorded for it) exactly when it is a member of
that set, and every failing key is recorded as an entry with code
OPTION_NOT_AVAILABLE and that key as the field name. -/
theorem validation_membership (md : ServiceOptionsMetadata)
    (opts : ServiceOptions) :
    validNames md = md.Data.map (fun e => e.Name) ∧
    (validateOptions (validNames md) opts).map (fun e => e.Field)
      = (opts.map (fun kv => kv.1)).filter
          (fun k => !((validNames md).contains k)) ∧
    (∀ e ∈ validateOptions (validNames md) opts,
      e.Code = "OPTION_NOT_AVAILABLE") ∧
    (∀ kv ∈ opts,
      (∃ e ∈ validateOptions (validNames md) opts, e.Field = kv.1)
        ↔ kv.1 ∉ validNames md) := by
  refine ⟨rfl, validateOptions_map_field _ _,
    validateOptions_code _ _, ?_⟩
  intro kv hkv
  constructor
  · rintro ⟨e, he, hef⟩ hmem
    have h1 : e.Field ∈
        (validateOptions (validNames md) opts).map (fun e => e.Field) :=
      List.mem_map_of_mem _ he
    rw [validateOptions_map_field] at h1
    have h2 := List.of_mem_filter h1
    rw [hef] at h2
    simp [hmem] at h2
  · intro hmem
    have hk : kv.1 ∈ (opts.map (fun kv => kv.1)).filter
        (fun k => !((validNames md).contains k)) :=
      List.mem_filter.mpr ⟨List.mem_map_of_mem _ hkv, by simp [hmem]⟩
    rw [← validateOptions_map_field] at hk
    obtain ⟨e, he, hef⟩ := List.mem_map.mp hk
    exact ⟨e, he, hef⟩

/-- Witness for C4 at the validation-error test fixtures. -/
theorem validation_membership_witness :
    validNames mdOne = mdOne.Data.map (fun e => e.Name) ∧
    (validateOptions (validNames mdOne) optsInvalid).map (fun e => e.Field)
      = (optsInvalid.map (fun kv => kv.1)).filter
          (fun k => !((validNames mdOne).contains k)) ∧
    (∀ e ∈ validateOptions (validNames mdOne) optsInvalid,
      e.Code = "OPTION_NOT_AVAILABLE") ∧
    (∀ kv ∈ optsInvalid,
      (∃ e ∈ validateOptions (validNames mdOne) optsInvalid,
        e.Field = kv.1) ↔ kv.1 ∉ validNames mdOne) :=
  validation_membership mdOne optsInvalid

/-- C9: the aggregate validation error UpdateOptions returns is the typed
validation constructor of the error taxonomy carrying a
ServiceOptionsValidationError value: its error-interface string comes
from the value, and any caller recovering the value by matching that
constructor reads the full structured entry list through its Errors
field, each entry exposing its Field and Code. -/
theorem updateOptions_validationError_typed (srv : Server) (id : String)
    (opts : ServiceOptions) (md : ServiceOptionsMetadata)
    (hid : id ≠ "")
    (hmeta : srv (getMetadataReq id) = .ok (.metadata md))
    (hinv : ∃ kv ∈ opts, kv.1 ∉ validNames md) :
    (UpdateOptions srv id opts).1
      = .error (.validation
          { Errors := validateOptions (validNames md) opts }) ∧
    (∀ v : ServiceOptionsValidationError,
      (UpdateOptions srv id opts).1 = .error (.validation v) →
        v.Errors = validateOptions (validNames md) opts ∧
        SDKError.errorString (.validation v) = v.errorMessage ∧
        ∀ e ∈ v.Errors, e.Code = "OPTION_NOT_AVAILABLE") := by
  obtain ⟨kv, hkv, hkvinv⟩ := hinv
  have hne : validateOptions (validNames md) opts ≠ [] :=
    validateOptions_ne_nil (validNames md) opts kv hkv (by simpa using hkvinv)
  have h1 : (UpdateOptions srv id opts).1
      = .error (.validation
          { Errors := validateOptions (validNames md) opts }) := by
    simp [UpdateOptions, hid, hmeta, hne]
  refine ⟨h1, ?_⟩
  intro v hv
  rw [h1] at hv
  simp only [Except.error.injEq, SDKError.validation.injEq] at hv
  rw [← hv]
  exact ⟨rfl, rfl, validateOptions_code _ _⟩

/-- Witness for C9 at the validation-error test fixtures. -/
theorem updateOptions_validationError_typed_witness :
    (UpdateOptions srvMetadataOne "svc-123" optsInvalid).1
      = .error (.validation
          { Errors := validateOptions (validNames mdOne) optsInvalid }) ∧
    (∀ v : ServiceOptionsValidationError,
      (UpdateOptions srvMetadataOne "svc-123" optsInvalid).1
          = .error (.validation v) →
        v.Errors = validateOptions (validNames mdOne) optsInvalid ∧
        SDKError.errorString (.validation v) = v.errorMessage ∧
        ∀ e ∈ v.Errors, e.Code = "OPTION_NOT_AVAILABLE") :=
  updateOptions_validationError_typed srvMetadataOne "svc-123" optsInvalid
    mdOne (by decide) rfl
    ⟨("invalid_option", .bool false), by decide, by decide⟩

end CacheFly
